import Mathlib

/-!
Verification of the 2024cardata pipeline (collector `DataSnatcherICEEV.py`,
exporter `toExcel.py`, dashboard `streamlit_dashboard.py`).

Numbers are modelled as exact rationals (`ℚ`): every numeric literal the
programs manipulate is a finite decimal, and all the arithmetic at stake
(sums, division by a list length, division by 1000, 2-decimal rounding)
is exact on such values, so `ℚ` is a faithful shallow embedding of the
Python `int`/`float` values involved.

Python dictionaries are modelled as functions into `Option`: a key that is
absent maps to `none`.  A Python value that may itself be `None` is also an
`Option` at the value layer.
-/

namespace CarData

/-- Result type of `extract_value`: Python returns either an `int`
(when the parsed value is a whole number, or on any failure, where the
literal int `0` is returned) or a `float`. -/
inductive PyNum where
  | int : ℤ → PyNum
  | float : ℚ → PyNum
deriving DecidableEq, Repr

/-- Python `str.strip()` on a character list: drop leading and trailing
whitespace. -/
def pyStrip (l : List Char) : List Char :=
  ((l.dropWhile Char.isWhitespace).reverse.dropWhile Char.isWhitespace).reverse

/-- The residue of `re.sub(r'[^\d.]', '', content.strip())`: the characters
of the stripped content that are digits or a decimal point, in order. -/
def stripNonNumeric (content : String) : List Char :=
  (pyStrip content.toList).filter (fun c => c.isDigit || c == '.')

/-- Value of a list of decimal digit characters read in base 10
(empty list reads as 0, as in `float("5.")` where the fraction part is empty). -/
def digitsToNat (l : List Char) : ℕ :=
  l.foldl (fun acc c => 10 * acc + (c.toNat - 48)) 0

/-- Python `float(s)` restricted to strings made of digits and dots (the only
characters surviving `stripNonNumeric`): fails (`ValueError`) when there is
more than one dot or no digit at all; otherwise reads the integer part and
the fraction part around the (optional) dot. -/
def parsePyFloat (l : List Char) : Option ℚ :=
  if 2 ≤ l.count '.' then none
  else if (l.filter Char.isDigit).isEmpty then none
  else
    let ip := l.takeWhile (fun c => c ≠ '.')
    let fp := (l.dropWhile (fun c => c ≠ '.')).drop 1
    some ((digitsToNat ip : ℚ) + (digitsToNat fp : ℚ) / (10 : ℚ) ^ fp.length)

/-- `extract_value` from `DataSnatcherICEEV.py`: strip everything except
digits and decimal points; empty residue defaults to `0`; parse as a float;
values above 1000 are assumed to be dollars and divided by 1000; return an
int when the result is whole, else the float; parse failure defaults to `0`. -/
def extract_value (content : String) : PyNum :=
  if (stripNonNumeric content).isEmpty then PyNum.int 0
  else
    match parsePyFloat (stripNonNumeric content) with
    | none => PyNum.int 0
    | some v0 =>
      let value := if 1000 < v0 then v0 / 1000 else v0
      if value.den = 1 then PyNum.int value.num else PyNum.float value

lemma parsePyFloat_nil : parsePyFloat [] = none := by
  simp [parsePyFloat]

lemma pyStrip_subset (l : List Char) : ∀ c ∈ pyStrip l, c ∈ l := by
  intro c hc
  unfold pyStrip at hc
  rw [List.mem_reverse] at hc
  have h2 := (List.dropWhile_sublist _).subset hc
  rw [List.mem_reverse] at h2
  exact (List.dropWhile_sublist _).subset h2

lemma stripNonNumeric_isEmpty_false {content : String} {v : ℚ}
    (h : parsePyFloat (stripNonNumeric content) = some v) :
    (stripNonNumeric content).isEmpty = false := by
  cases hl : stripNonNumeric content with
  | nil => rw [hl, parsePyFloat_nil] at h; cases h
  | cons a l => rfl

end CarData

namespace CarData

/-- Claim C1: for every content string whose digits-and-decimal-point residue
parses as a number `v ≤ 1000`, `extract_value` returns that number unchanged:
a Python int when the value is whole, otherwise the float itself. -/
theorem extract_value_le_1000 (content : String) (v : ℚ)
    (hp : parsePyFloat (stripNonNumeric content) = some v) (hle : v ≤ 1000) :
    extract_value content = if v.den = 1 then PyNum.int v.num else PyNum.float v := by
  have hne := stripNonNumeric_isEmpty_false hp
  have hnlt : ¬ (1000 < v) := not_lt.mpr hle
  simp only [extract_value, hne, Bool.false_eq_true, if_false, hp, hnlt]

/-- Witness for C1: content `"14.5 mpg"` yields the float `14.5`. -/
theorem extract_value_le_1000_witness :
    extract_value "14.5 mpg" = PyNum.float (29 / 2) := by
  have hp : parsePyFloat (stripNonNumeric "14.5 mpg") = some (29 / 2) := by
    have hs : stripNonNumeric "14.5 mpg" = ['1', '4', '.', '5'] := by decide
    rw [hs]
    simp +decide [parsePyFloat, digitsToNat]
    norm_num
  have h := extract_value_le_1000 "14.5 mpg" (29 / 2) hp (by norm_num)
  rw [h, if_neg (by norm_num)]

/-- Claim C2: for every content string whose residue parses as a number
`v > 1000`, `extract_value` returns `v / 1000`, as an int when the quotient
is whole, otherwise as the float. -/
theorem extract_value_gt_1000 (content : String) (v : ℚ)
    (hp : parsePyFloat (stripNonNumeric content) = some v) (hgt : 1000 < v) :
    extract_value content =
      if (v / 1000).den = 1 then PyNum.int (v / 1000).num
      else PyNum.float (v / 1000) := by
  have hne := stripNonNumeric_isEmpty_false hp
  simp only [extract_value, hne, Bool.false_eq_true, if_false, hp, hgt, if_true]

/-- Witness for C2: content `"25000"` yields the int `25`. -/
theorem extract_value_gt_1000_witness :
    extract_value "25000" = PyNum.int 25 := by
  have hp : parsePyFloat (stripNonNumeric "25000") = some 25000 := by
    have hs : stripNonNumeric "25000" = ['2', '5', '0', '0', '0'] := by decide
    rw [hs]
    simp +decide [parsePyFloat, digitsToNat]
  have h := extract_value_gt_1000 "25000" 25000 hp (by norm_num)
  rw [h, if_pos (by norm_num)]
  have hnum : ((25000 : ℚ) / 1000).num = 25 := by norm_num
  rw [hnum]

/-- Claim C3: a content string that contains no digit and no decimal point
yields `0` (empty residue), and so does any string whose digits-and-dots
residue fails to parse as a float (e.g. multiple decimal points). -/
theorem extract_value_defaults_zero (content : String) :
    ((∀ c ∈ content.toList, c.isDigit = false ∧ c ≠ '.') →
      extract_value content = PyNum.int 0)
    ∧ (parsePyFloat (stripNonNumeric content) = none →
      extract_value content = PyNum.int 0) := by
  constructor
  · intro h
    have hnil : stripNonNumeric content = [] := by
      rw [stripNonNumeric, List.filter_eq_nil_iff]
      intro c hc
      obtain ⟨h1, h2⟩ := h c (pyStrip_subset content.toList c hc)
      simp [h1, h2]
    simp [extract_value, hnil]
  · intro hp
    by_cases he : (stripNonNumeric content).isEmpty = true
    · simp [extract_value, he]
    · simp [extract_value, he, hp]

/-- Witness for C3: content `"N/A"` yields `0`, and content `"1.2.3"`
(residue with two decimal points, a float parse failure) yields `0`. -/
theorem extract_value_defaults_zero_witness :
    extract_value "N/A" = PyNum.int 0 ∧ extract_value "1.2.3" = PyNum.int 0 :=
  ⟨(extract_value_defaults_zero "N/A").1 (by decide),
   (extract_value_defaults_zero "1.2.3").2 (by decide)⟩

/-- Step 3 of the collector: for one KPI, gather
`[car_kpi_data[car][kpi] for car in car_list if car_kpi_data[car][kpi] is not None]`
and return `statistics.mean(kpi_values) if kpi_values else 0`.  The value
matrix is a function `car → kpi → Option ℚ`, `none` standing for a Python
`None` entry; `statistics.mean` of a nonempty list is its sum divided by its
length. -/
def collectorAverage (car_list : List String) (matrix : String → String → Option ℚ)
    (kpi : String) : ℚ :=
  let kpi_values := car_list.filterMap (fun car => matrix car kpi)
  if kpi_values.isEmpty then 0 else kpi_values.sum / kpi_values.length

lemma filterMap_eq_map_of_some {α β : Type} (f : α → Option β) (g : α → β) :
    ∀ l : List α, (∀ a ∈ l, f a = some (g a)) → l.filterMap f = l.map g
  | [], _ => rfl
  | a :: l, h => by
    rw [List.filterMap_cons_some (h a (List.mem_cons_self a l)), List.map_cons,
      filterMap_eq_map_of_some f g l (fun x hx => h x (List.mem_cons_of_mem a hx))]

lemma filterMap_eq_nil_of_none {α β : Type} (f : α → Option β) :
    ∀ l : List α, (∀ a ∈ l, f a = none) → l.filterMap f = []
  | [], _ => rfl
  | a :: l, h => by
    rw [List.filterMap_cons_none (h a (List.mem_cons_self a l)),
      filterMap_eq_nil_of_none f l (fun x hx => h x (List.mem_cons_of_mem a hx))]

/-- Claim C4: when every car of a nonempty car list has a non-`None` entry
for a KPI, the collector stores the arithmetic mean of those values as the
"Average" for that KPI; when no values are present, it stores `0`. -/
theorem collectorAverage_mean (cars : List String) (matrix : String → String → Option ℚ)
    (kpi : String) (v : String → ℚ) :
    (cars ≠ [] → (∀ c ∈ cars, matrix c kpi = some (v c)) →
      collectorAverage cars matrix kpi = (cars.map v).sum / cars.length)
    ∧ ((∀ c ∈ cars, matrix c kpi = none) → collectorAverage cars matrix kpi = 0) := by
  constructor
  · intro hne hall
    have hemp : (cars.map v).isEmpty = false := by
      cases cars with
      | nil => exact absurd rfl hne
      | cons a l => rfl
    simp only [collectorAverage, filterMap_eq_map_of_some _ _ _ hall, hemp,
      Bool.false_eq_true, if_false, List.length_map]
  · intro hall
    simp only [collectorAverage, filterMap_eq_nil_of_none _ _ hall, List.isEmpty_nil, if_true]

/-- Witness for C4: two cars both valued `2` average to `2`; a car whose
entry is `None` for the KPI contributes nothing, and with no values at all
the average is `0`. -/
theorem collectorAverage_mean_witness :
    collectorAverage ["a", "b"] (fun _ _ => some 2) "k" = 2
    ∧ collectorAverage ["a"] (fun _ _ => none) "k" = 0 := by
  constructor
  · have h := (collectorAverage_mean ["a", "b"] (fun _ _ => some 2) "k" (fun _ => 2)).1
      (by simp) (fun c _ => rfl)
    simp at h
    exact h
  · exact (collectorAverage_mean ["a"] (fun _ _ => none) "k" (fun _ => 0)).2 (fun c _ => rfl)

/-- Python `round(x, 0)` as used via `round(avg, 2)`: round half to even on
the integer scale. -/
def pyRoundHalfEven (x : ℚ) : ℤ :=
  if x - ⌊x⌋ < 1 / 2 then ⌊x⌋
  else if 1 / 2 < x - ⌊x⌋ then ⌊x⌋ + 1
  else if 2 ∣ ⌊x⌋ then ⌊x⌋ else ⌊x⌋ + 1

/-- Python `round(x, 2)`: round to two decimal places, half to even. -/
def round2 (x : ℚ) : ℚ := (pyRoundHalfEven (x * 100) : ℚ) / 100

/-- `calculate_averages` from `toExcel.py`: for each KPI, collect
`[values[car].get(kpi, 0) for car in cars]` and store
`round(sum / len, 2)` (or `0` for an empty list) under the KPI name, in
KPI order.  The value-matrix file is a function `car → kpi → Option ℚ`
(`none` for a missing KPI entry, defaulted to `0` by `.get`); only the
declared cars are ever looked up. -/
def calculate_averages (cars kpis : List String)
    (values : String → String → Option ℚ) : List (String × ℚ) :=
  kpis.map (fun kpi =>
    let kpi_values := cars.map (fun car => (values car kpi).getD 0)
    if kpi_values.isEmpty then (kpi, 0)
    else (kpi, round2 (kpi_values.sum / kpi_values.length)))

/-- Claim C5: for a nonempty declared car list, `calculate_averages` stores,
for each declared KPI, the sum of the cars' values (missing entries read as
`0`) divided by the number of cars, rounded to 2 decimals; and the result
only depends on the value matrix's entries at the declared cars, so an
"Average" entry present in the file has no effect. -/
theorem calculate_averages_spec (cars kpis : List String)
    (v1 v2 : String → String → Option ℚ)
    (hagree : ∀ c ∈ cars, ∀ k, v1 c k = v2 c k) (hne : cars ≠ [])
    (kpi : String) (hk : kpi ∈ kpis) :
    (kpi, round2 ((cars.map (fun c => (v1 c kpi).getD 0)).sum / cars.length))
        ∈ calculate_averages cars kpis v1
    ∧ calculate_averages cars kpis v1 = calculate_averages cars kpis v2 := by
  constructor
  · refine List.mem_map.mpr ⟨kpi, hk, ?_⟩
    have hemp : (cars.map (fun car => (v1 car kpi).getD 0)).isEmpty = false := by
      cases cars with
      | nil => exact absurd rfl hne
      | cons a l => rfl
    simp only [hemp, Bool.false_eq_true, if_false, List.length_map]
  · unfold calculate_averages
    apply List.map_congr_left
    intro k _
    have hmaps : cars.map (fun car => (v1 car k).getD 0)
        = cars.map (fun car => (v2 car k).getD 0) :=
      List.map_congr_left (fun c hc => by rw [hagree c hc k])
    simp only [hmaps]

/-- Witness for C5: three cars valued `1`, `2` and missing (read as `0`)
average to `round((1+2+0)/3, 2) = 1`, and adding an "Average" entry to the
value matrix leaves the result unchanged. -/
theorem calculate_averages_spec_witness :
    ("k", 1) ∈ calculate_averages ["a", "b", "c"] ["k"]
      (fun c _ => if c = "a" then some 1 else if c = "b" then some 2 else none)
    ∧ calculate_averages ["a", "b", "c"] ["k"]
        (fun c _ => if c = "a" then some 1 else if c = "b" then some 2 else none)
      = calculate_averages ["a", "b", "c"] ["k"]
        (fun c _ => if c = "Average" then some 999
          else if c = "a" then some 1 else if c = "b" then some 2 else none) := by
  have h := calculate_averages_spec ["a", "b", "c"] ["k"]
    (fun c _ => if c = "a" then some 1 else if c = "b" then some 2 else none)
    (fun c _ => if c = "Average" then some 999
      else if c = "a" then some 1 else if c = "b" then some 2 else none)
    (by intro c hc k; fin_cases hc <;> rfl) (by simp) "k" (by simp)
  obtain ⟨h1, h2⟩ := h
  refine ⟨?_, h2⟩
  have e : round2 (((["a", "b", "c"].map fun c =>
      ((if c = "a" then some 1 else if c = "b" then some 2 else none : Option ℚ)).getD 0).sum)
        / (["a", "b", "c"] : List String).length) = 1 := by
    simp +decide [round2, pyRoundHalfEven]
    norm_num
  rw [e] at h1
  exact h1

/-- Parsed content of the catalog file `car_kpi_data.json`: each key is
present (`some`) or absent (`none`, a `KeyError` on direct indexing). -/
structure CatalogData where
  top_5_KPIs : Option (List String)
  top_cars_US_2024 : Option (List String)
  top_bought_cars_US : Option (List String)
deriving DecidableEq, Repr

/-- Outcome of opening and JSON-decoding the catalog file: missing file
(`FileNotFoundError`), invalid JSON (`JSONDecodeError`), or parsed data. -/
inductive FileRead where
  | missing
  | invalid
  | ok (data : CatalogData)
deriving DecidableEq, Repr

/-- Outcome of the collector's Step 1 `try` block: either the existing
catalog is used as-is, or an exception (file, JSON or key error, including
a car list whose length is not 20) sends control to the regeneration branch. -/
inductive LoadOutcome where
  | useExisting (kpis cars : List String)
  | regenerate
deriving DecidableEq, Repr

/-- The collector's Step 1 `try` block: load the file, read
`data["top_5_KPIs"]`, read the car list under `top_cars_US_2024` (falling
back to the legacy `top_bought_cars_US` key, else `KeyError`), and raise
`KeyError` unless the car list has exactly 20 entries; every raised error
is caught and leads to regeneration. -/
def loadCatalog (f : FileRead) : LoadOutcome :=
  match f with
  | .missing => .regenerate
  | .invalid => .regenerate
  | .ok d =>
    match d.top_5_KPIs with
    | none => .regenerate
    | some kl =>
      match d.top_cars_US_2024 with
      | some cl => if cl.length = 20 then .useExisting kl cl else .regenerate
      | none =>
        match d.top_bought_cars_US with
        | some cl => if cl.length = 20 then .useExisting kl cl else .regenerate
        | none => .regenerate

/-- Python `str.split('\n')` on a character list: split at every newline,
keeping empty segments (the empty input gives one empty segment). -/
def splitLines : List Char → List (List Char)
  | [] => [[]]
  | c :: rest =>
    match splitLines rest with
    | [] => [[]]
    | line :: more =>
      if c = '\n' then [] :: line :: more else (c :: line) :: more

/-- The regeneration branch's car-list cleanup:
`content.strip().split('\n')`, then `[car.strip() for car in car_list if car.strip()]`. -/
def cleanCarList (content : String) : List String :=
  (((splitLines (pyStrip content.toList)).map pyStrip).filter
    (fun s => ¬ s.isEmpty)).map (fun l => String.mk l)

/-- The collector's fixed pool of candidate KPIs (`all_kpis`). -/
def allKPIs : List String :=
  ["Fuel Efficiency (MPG)", "Acceleration (0-60 mph)", "Range (miles)",
   "Maintenance Cost", "Cost Over Ownership", "Passenger Capacity",
   "Cargo Space (cu ft)", "Towing Capacity (lbs)", "Horsepower"]

/-- The collector's always-banned KPIs (`excluded_kpis`). -/
def excludedKPIs : List String :=
  ["Reliability Rating", "Safety Rating", "Resale Value"]

/-- `available_kpis = [kpi for kpi in all_kpis if kpi not in excluded_kpis]`. -/
def availableKPIs : List String :=
  allKPIs.filter (fun kpi => ¬ excludedKPIs.contains kpi)

/-- Result of the collector's Step 1 as a whole: `sys.exit(1)`, or
proceeding with a KPI list and car list, recording the catalog written to
disk by the regeneration branch (`none` when the existing file was kept). -/
inductive Step1Result where
  | exit1
  | proceed (kpis cars : List String) (written : Option CatalogData)
deriving DecidableEq, Repr

/-- The catalog data the regeneration branch persists:
`{"top_cars_US_2024": car_list, "top_5_KPIs": kpi_list}`. -/
def persistCatalog (kpis cars : List String) : CatalogData :=
  ⟨some kpis, some cars, none⟩

/-- The collector's Step 1: keep a valid existing catalog unchanged, or
regenerate: ask the API for the car list (`api = none` models a failed
call or a response without choices), clean it, exit with code 1 unless
exactly 20 cars remain, draw `sample5 availableKPIs` (modelling
`random.sample(available_kpis, 5)`), and persist the new catalog. -/
def step1 (f : FileRead) (api : Option String)
    (sample5 : List String → List String) : Step1Result :=
  match loadCatalog f with
  | .useExisting kl cl => .proceed kl cl none
  | .regenerate =>
    match api with
    | none => .exit1
    | some content =>
      let cars := cleanCarList content
      if cars.length ≠ 20 then .exit1
      else
        let kpis := sample5 availableKPIs
        .proceed kpis cars (some (persistCatalog kpis cars))

/-- The catalog file written during Step 1, if any. -/
def writtenCatalog : Step1Result → Option CatalogData
  | .exit1 => none
  | .proceed _ _ w => w

/-- Claim C6: a missing file, invalid JSON, an absent car-list key or a car
list without exactly 20 entries all route Step 1 into the regeneration
branch (which fetches a list, samples 5 KPIs from the 9-item available
pool, and persists the result); a catalog that loads with both keys and
exactly 20 cars is used unchanged, with nothing fetched or written. -/
theorem step1_catalog_branching (d : CatalogData) (kl cl : List String)
    (api : Option String) (sample5 : List String → List String) :
    loadCatalog .missing = .regenerate
    ∧ loadCatalog .invalid = .regenerate
    ∧ (d.top_cars_US_2024 = none → d.top_bought_cars_US = none →
        loadCatalog (.ok d) = .regenerate)
    ∧ (d.top_cars_US_2024 = some cl → cl.length ≠ 20 →
        loadCatalog (.ok d) = .regenerate)
    ∧ (d.top_5_KPIs = some kl → d.top_cars_US_2024 = some cl → cl.length = 20 →
        step1 (.ok d) api sample5 = .proceed kl cl none)
    ∧ (∀ content, loadCatalog (.ok d) = .regenerate →
        (cleanCarList content).length = 20 →
        step1 (.ok d) (some content) sample5 =
          .proceed (sample5 availableKPIs) (cleanCarList content)
            (some (persistCatalog (sample5 availableKPIs) (cleanCarList content))))
    ∧ availableKPIs.length = 9 ∧ ∀ k ∈ excludedKPIs, k ∉ availableKPIs := by
  refine ⟨rfl, rfl, ?_, ?_, ?_, ?_, by decide, by decide⟩
  · intro h1 h2
    cases hk : d.top_5_KPIs <;> simp [loadCatalog, hk, h1, h2]
  · intro h1 h2
    cases hk : d.top_5_KPIs <;> simp [loadCatalog, hk, h1, h2]
  · intro h1 h2 h3
    simp [step1, loadCatalog, h1, h2, h3]
  · intro content hreg hlen
    simp [step1, hreg, hlen]

/-- Witness for C6: a catalog with 19 cars triggers regeneration; one with
20 cars is kept as-is and nothing is written. -/
theorem step1_catalog_branching_witness :
    loadCatalog (.ok ⟨some ["k"], some (List.replicate 19 "car"), none⟩) = .regenerate
    ∧ step1 (.ok ⟨some ["k"], some (List.replicate 20 "car"), none⟩) none
        (fun l => l.take 5) = .proceed ["k"] (List.replicate 20 "car") none := by
  constructor
  · exact (step1_catalog_branching ⟨some ["k"], some (List.replicate 19 "car"), none⟩
      ["k"] (List.replicate 19 "car") none (fun l => l.take 5)).2.2.2.1 rfl (by decide)
  · exact (step1_catalog_branching ⟨some ["k"], some (List.replicate 20 "car"), none⟩
      ["k"] (List.replicate 20 "car") none (fun l => l.take 5)).2.2.2.2.1 rfl rfl (by decide)

/-- Claim C7: in the regeneration branch, a failed API call (no response or
no choices) or a cleaned fetched car list without exactly 20 entries makes
the process exit with code 1, and no catalog file is written. -/
theorem step1_regen_failure_exits (f : FileRead) (sample5 : List String → List String)
    (h : loadCatalog f = .regenerate) :
    (step1 f none sample5 = .exit1 ∧ writtenCatalog (step1 f none sample5) = none)
    ∧ ∀ content, (cleanCarList content).length ≠ 20 →
        step1 f (some content) sample5 = .exit1
        ∧ writtenCatalog (step1 f (some content) sample5) = none := by
  constructor
  · constructor <;> simp [step1, h, writtenCatalog]
  · intro content hlen
    constructor <;> simp [step1, h, hlen, writtenCatalog]

/-- Witness for C7: with a missing catalog file, an API failure exits with
code 1, and so does a fetched list that cleans up to only two cars. -/
theorem step1_regen_failure_exits_witness :
    step1 .missing none (fun l => l.take 5) = .exit1
    ∧ step1 .missing (some "one\ntwo") (fun l => l.take 5) = .exit1 := by
  have h := step1_regen_failure_exits .missing (fun l => l.take 5) rfl
  exact ⟨h.1.1, (h.2 "one\ntwo" (by decide)).1⟩

/-- Claim C9: writing the catalog the collector persists (5 KPIs and 20
cars under `top_5_KPIs` and `top_cars_US_2024`) and running the load step
again reproduces exactly the KPI and car lists that were written. -/
theorem persistCatalog_roundtrip (kpis cars : List String)
    (_hk : kpis.length = 5) (hc : cars.length = 20) :
    loadCatalog (.ok (persistCatalog kpis cars)) = .useExisting kpis cars := by
  simp [loadCatalog, persistCatalog, hc]

/-- Witness for C9: a concrete 5-KPI, 20-car catalog round-trips. -/
theorem persistCatalog_roundtrip_witness :
    loadCatalog (.ok (persistCatalog ["k1", "k2", "k3", "k4", "k5"]
        (List.replicate 20 "car")))
      = .useExisting ["k1", "k2", "k3", "k4", "k5"] (List.replicate 20 "car") :=
  persistCatalog_roundtrip _ _ (by decide) (by decide)

/-- `validate_json_data` from `toExcel.py`: require both catalog keys,
nonempty KPI and car lists, and an entry in the value matrix for every
declared car; a car entry lacking a declared KPI only logs a warning and
does not affect the result.  The value-matrix file is a function from car
name to an optional per-car dictionary (`none` when the car is absent),
whose entries are themselves optional per KPI. -/
def validate_json_data (kd : CatalogData)
    (vd : String → Option (String → Option ℚ)) : Bool :=
  match kd.top_5_KPIs, kd.top_cars_US_2024 with
  | some kpis, some cars =>
    if kpis.isEmpty then false
    else if cars.isEmpty then false
    else cars.all (fun car => (vd car).isSome)
  | _, _ => false

/-- What `main` in `toExcel.py` does right after loading both files:
return exit code 1 when validation fails, otherwise continue. -/
inductive ExporterOutcome where
  | exitCode (n : ℕ)
  | continueProcessing
deriving DecidableEq, Repr

/-- Step 2 of the exporter's `main`: `if not validate_json_data(...): return 1`. -/
def exporterValidationStep (kd : CatalogData)
    (vd : String → Option (String → Option ℚ)) : ExporterOutcome :=
  if validate_json_data kd vd then .continueProcessing else .exitCode 1

/-- Claim C8: with nonempty declared KPI and car lists, a declared car with
no entry at all in the value matrix makes validation fail and the exporter
exit with code 1, while a matrix whose cars are all present passes
validation and processing continues, even when a car entry lacks one of
the declared KPIs. -/
theorem exporter_validation_car_presence (kpis cars : List String)
    (vd : String → Option (String → Option ℚ))
    (hk : kpis ≠ []) (hc : cars ≠ []) :
    ((∃ c ∈ cars, vd c = none) →
      validate_json_data ⟨some kpis, some cars, none⟩ vd = false
      ∧ exporterValidationStep ⟨some kpis, some cars, none⟩ vd = .exitCode 1)
    ∧ ((∀ c ∈ cars, (vd c).isSome) →
      validate_json_data ⟨some kpis, some cars, none⟩ vd = true
      ∧ exporterValidationStep ⟨some kpis, some cars, none⟩ vd = .continueProcessing) := by
  have hke : kpis.isEmpty = false := by
    cases kpis with
    | nil => exact absurd rfl hk
    | cons a l => rfl
  have hce : cars.isEmpty = false := by
    cases cars with
    | nil => exact absurd rfl hc
    | cons a l => rfl
  constructor
  · intro hmiss
    obtain ⟨c, hcmem, hcnone⟩ := hmiss
    have hall : cars.all (fun car => (vd car).isSome) = false := by
      rw [List.all_eq_false]
      exact ⟨c, hcmem, by simp [hcnone]⟩
    have hv : validate_json_data ⟨some kpis, some cars, none⟩ vd = false := by
      simp only [validate_json_data, hke, hce, Bool.false_eq_true, if_false, hall]
    exact ⟨hv, by simp [exporterValidationStep, hv]⟩
  · intro hpres
    have hall : cars.all (fun car => (vd car).isSome) = true :=
      List.all_eq_true.mpr (fun c hcmem => hpres c hcmem)
    have hv : validate_json_data ⟨some kpis, some cars, none⟩ vd = true := by
      simp only [validate_json_data, hke, hce, Bool.false_eq_true, if_false, hall]
    exact ⟨hv, by simp [exporterValidationStep, hv]⟩

/-- Witness for C8: with cars `a`, `b`, a matrix missing car `b` exits with
code 1, and a matrix holding both cars but no KPI entries at all still
passes validation and continues. -/
theorem exporter_validation_car_presence_witness :
    exporterValidationStep ⟨some ["k"], some ["a", "b"], none⟩
      (fun c => if c = "a" then some (fun _ => some 1) else none) = .exitCode 1
    ∧ exporterValidationStep ⟨some ["k"], some ["a", "b"], none⟩
      (fun _ => some (fun _ => none)) = .continueProcessing := by
  constructor
  · exact ((exporter_validation_car_presence ["k"] ["a", "b"]
      (fun c => if c = "a" then some (fun _ => some 1) else none)
      (by simp) (by simp)).1 ⟨"b", by simp, rfl⟩).2
  · exact ((exporter_validation_car_presence ["k"] ["a", "b"]
      (fun _ => some (fun _ => none))
      (by simp) (by simp)).2 (fun c _ => rfl)).2

/-- Python `max(cars, key=key)`: scan left to right, keeping the first
element whose key is strictly greater than the current best's; `none` on an
empty list (where Python raises `ValueError`). -/
def pyMaxBy (key : String → ℚ) (l : List String) : Option String :=
  l.foldl (fun acc x =>
    match acc with
    | none => some x
    | some b => if key b < key x then some x else some b) none

/-- Python `min(cars, key=key)`, symmetrically. -/
def pyMinBy (key : String → ℚ) (l : List String) : Option String :=
  l.foldl (fun acc x =>
    match acc with
    | none => some x
    | some b => if key x < key b then some x else some b) none

/-- The comparison key of the dashboard's Key Insights section:
`values_data[car].get(kpi, 0)`. -/
def dashboardKey (vd : String → String → Option ℚ) (kpi car : String) : ℚ :=
  (vd car kpi).getD 0

/-- The value displayed for a Top Performers line:
`values_data[max(cars, key=...)][kpi]`, a direct lookup with no default
(`none` models the `KeyError` branch). -/
def topPerformerValue (cars : List String) (vd : String → String → Option ℚ)
    (kpi : String) : Option ℚ :=
  (pyMaxBy (dashboardKey vd kpi) cars).bind (fun c => vd c kpi)

/-- The value displayed for an Areas for Improvement line, via `min`. -/
def improvementValue (cars : List String) (vd : String → String → Option ℚ)
    (kpi : String) : Option ℚ :=
  (pyMinBy (dashboardKey vd kpi) cars).bind (fun c => vd c kpi)

lemma pyMaxBy_go (key : String → ℚ) :
    ∀ (l : List String) (b : String),
      ∃ r, l.foldl (fun acc x =>
          match acc with
          | none => some x
          | some b2 => if key b2 < key x then some x else some b2) (some b)
        = some r
      ∧ (r = b ∨ r ∈ l) ∧ key b ≤ key r ∧ ∀ x ∈ l, key x ≤ key r
  | [], b => ⟨b, rfl, Or.inl rfl, le_refl _, by simp⟩
  | x :: l, b => by
    by_cases hbx : key b < key x
    · obtain ⟨r, hfold, hmem, hle, hmax⟩ := pyMaxBy_go key l x
      refine ⟨r, ?_, ?_, le_of_lt (lt_of_lt_of_le hbx hle), ?_⟩
      · simpa [hbx] using hfold
      · rcases hmem with h | h
        · exact Or.inr (h ▸ List.mem_cons_self x l)
        · exact Or.inr (List.mem_cons_of_mem x h)
      · intro y hy
        rcases List.mem_cons.mp hy with h | h
        · exact h ▸ hle
        · exact hmax y h
    · obtain ⟨r, hfold, hmem, hle, hmax⟩ := pyMaxBy_go key l b
      refine ⟨r, ?_, ?_, hle, ?_⟩
      · simpa [hbx] using hfold
      · rcases hmem with h | h
        · exact Or.inl h
        · exact Or.inr (List.mem_cons_of_mem x h)
      · intro y hy
        rcases List.mem_cons.mp hy with h | h
        · exact h ▸ le_trans (le_of_not_lt hbx) hle
        · exact hmax y h

lemma pyMinBy_go (key : String → ℚ) :
    ∀ (l : List String) (b : String),
      ∃ r, l.foldl (fun acc x =>
          match acc with
          | none => some x
          | some b2 => if key x < key b2 then some x else some b2) (some b)
        = some r
      ∧ (r = b ∨ r ∈ l) ∧ key r ≤ key b ∧ ∀ x ∈ l, key r ≤ key x
  | [], b => ⟨b, rfl, Or.inl rfl, le_refl _, by simp⟩
  | x :: l, b => by
    by_cases hxb : key x < key b
    · obtain ⟨r, hfold, hmem, hle, hmin⟩ := pyMinBy_go key l x
      refine ⟨r, ?_, ?_, le_of_lt (lt_of_le_of_lt hle hxb), ?_⟩
      · simpa [hxb] using hfold
      · rcases hmem with h | h
        · exact Or.inr (h ▸ List.mem_cons_self x l)
        · exact Or.inr (List.mem_cons_of_mem x h)
      · intro y hy
        rcases List.mem_cons.mp hy with h | h
        · exact h ▸ hle
        · exact hmin y h
    · obtain ⟨r, hfold, hmem, hle, hmin⟩ := pyMinBy_go key l b
      refine ⟨r, ?_, ?_, hle, ?_⟩
      · simpa [hxb] using hfold
      · rcases hmem with h | h
        · exact Or.inl h
        · exact Or.inr (List.mem_cons_of_mem x h)
      · intro y hy
        rcases List.mem_cons.mp hy with h | h
        · exact h ▸ le_trans hle (le_of_not_lt hxb)
        · exact hmin y h

lemma pyMaxBy_spec {key : String → ℚ} {l : List String} {c : String}
    (h : pyMaxBy key l = some c) : c ∈ l ∧ ∀ x ∈ l, key x ≤ key c := by
  cases l with
  | nil => cases h
  | cons a l =>
    obtain ⟨r, hfold, hmem, hle, hmax⟩ := pyMaxBy_go key l a
    rw [pyMaxBy, List.foldl_cons] at h
    rw [hfold] at h
    cases h
    refine ⟨?_, ?_⟩
    · rcases hmem with h | h
      · exact h ▸ List.mem_cons_self a l
      · exact List.mem_cons_of_mem a h
    · intro y hy
      rcases List.mem_cons.mp hy with h | h
      · exact h ▸ hle
      · exact hmax y h

lemma pyMinBy_spec {key : String → ℚ} {l : List String} {c : String}
    (h : pyMinBy key l = some c) : c ∈ l ∧ ∀ x ∈ l, key c ≤ key x := by
  cases l with
  | nil => cases h
  | cons a l =>
    obtain ⟨r, hfold, hmem, hle, hmin⟩ := pyMinBy_go key l a
    rw [pyMinBy, List.foldl_cons] at h
    rw [hfold] at h
    cases h
    refine ⟨?_, ?_⟩
    · rcases hmem with h | h
      · exact h ▸ List.mem_cons_self a l
      · exact List.mem_cons_of_mem a h
    · intro y hy
      rcases List.mem_cons.mp hy with h | h
      · exact h ▸ hle
      · exact hmin y h

/-- Claim C10: in the Key Insights section, the Top Performers car for a
KPI is a maximiser (and the Areas for Improvement car a minimiser) of
`values_data[car].get(kpi, 0)` over the car list, and the displayed direct
lookup `values_data[selected_car][kpi]` is well-defined exactly when the
selected extremal car has an entry for that KPI. -/
theorem dashboard_insights_lookup (cars : List String)
    (vd : String → String → Option ℚ) (kpis : List String) (kpi : String)
    (_hkpi : kpi ∈ kpis.take 3) (cmax cmin : String)
    (hmax : pyMaxBy (dashboardKey vd kpi) cars = some cmax)
    (hmin : pyMinBy (dashboardKey vd kpi) cars = some cmin) :
    cmax ∈ cars ∧ (∀ c ∈ cars, dashboardKey vd kpi c ≤ dashboardKey vd kpi cmax)
    ∧ cmin ∈ cars ∧ (∀ c ∈ cars, dashboardKey vd kpi cmin ≤ dashboardKey vd kpi c)
    ∧ ((topPerformerValue cars vd kpi).isSome ↔ (vd cmax kpi).isSome)
    ∧ ((improvementValue cars vd kpi).isSome ↔ (vd cmin kpi).isSome) := by
  obtain ⟨hmem1, hbound1⟩ := pyMaxBy_spec hmax
  obtain ⟨hmem2, hbound2⟩ := pyMinBy_spec hmin
  refine ⟨hmem1, hbound1, hmem2, hbound2, ?_, ?_⟩
  · rw [topPerformerValue, hmax, Option.some_bind]
  · rw [improvementValue, hmin, Option.some_bind]

/-- Witness for C10: with cars `a`, `b` where only `b` has a value for the
first KPI, the Top Performers lookup succeeds at the argmax `b`, while the
Areas for Improvement lookup at the argmin `a` hits the missing entry. -/
theorem dashboard_insights_lookup_witness :
    (topPerformerValue ["a", "b"]
      (fun c _ => if c = "b" then some 5 else none) "k1").isSome = true
    ∧ (improvementValue ["a", "b"]
      (fun c _ => if c = "b" then some 5 else none) "k1").isSome = false := by
  have hmax : pyMaxBy (dashboardKey (fun c _ => if c = "b" then some 5 else none) "k1")
      ["a", "b"] = some "b" := by
    simp +decide [pyMaxBy, dashboardKey]
  have hmin : pyMinBy (dashboardKey (fun c _ => if c = "b" then some 5 else none) "k1")
      ["a", "b"] = some "a" := by
    simp +decide [pyMinBy, dashboardKey]
  have h := dashboard_insights_lookup ["a", "b"]
    (fun c _ => if c = "b" then some 5 else none) ["k1", "k2"] "k1"
    (by simp) "b" "a" hmax hmin
  constructor
  · exact h.2.2.2.2.1.mpr rfl
  · cases hb : (improvementValue ["a", "b"]
      (fun c _ => if c = "b" then some 5 else none) "k1").isSome with
    | false => rfl
    | true => exact absurd (h.2.2.2.2.2.mp hb) (by decide)

end CarData
